import Mathlib

/-!
Verification development for the culvert-baffle drawing service
(repository: culvert-baffle-api).

The core under verification is the parameter-normalization and
geometric-layout engine of the drawing generator (source file
src/app.py, function generate_drawing), together with the components
of the canonical input-parsing layer that the design document
describes (gradient parser, small-culvert fallback, ordered placement
classifier, per-field parse recovery).  The design document records
that the source core spans two near-duplicate input files, the
canonical version being the larger one; only the smaller near
duplicate (app.py) is available here, so the components unique to the
canonical file are modelled from the design document and are marked
as such in their doc comments.

Numbers are modelled as exact rationals: every numeric quantity in
the program is a Python float used for finite decimal arithmetic, and
the layout rules are stated over exact arithmetic.  Strings are
modelled as Lean strings / lists of characters; the ASCII lowering of
Python str.lower is modelled with Char.toLower.
-/

/-- Booleans: is the character an ASCII decimal digit (as tested by
Python float parsing of the digit runs it accepts). -/
def isDigitC (c : Char) : Bool := 48 ≤ c.toNat && c.toNat ≤ 57

/-- Numeric value of an ASCII digit character. -/
def digVal (c : Char) : ℕ := c.toNat - 48

/-- Value of a run of ASCII digits, most significant first. -/
def natOfDigits (l : List Char) : ℕ := l.foldl (fun a c => 10 * a + digVal c) 0

/-- Whitespace characters accepted around Python float literals and by
the regex class backslash-s (the common four; exotic unicode spaces are
outside the model). -/
def isWsC (c : Char) : Bool := c == ' ' || c == '\t' || c == '\n' || c == '\r'

/-- Strip leading and trailing whitespace, as Python float does with
its argument. -/
def trimWs (l : List Char) : List Char :=
  ((l.dropWhile isWsC).reverse.dropWhile isWsC).reverse

/-- Is the first list a prefix of the second. -/
def isPrefixL : List Char → List Char → Bool
  | [], _ => true
  | _ :: _, [] => false
  | a :: as, b :: bs => a == b && isPrefixL as bs

/-- Substring containment, as the Python expression needle in hay. -/
def containsSub (needle : List Char) : List Char → Bool
  | [] => needle.isEmpty
  | b :: bs => isPrefixL needle (b :: bs) || containsSub needle bs

/-- Fueled worker for removeAll; each step consumes at least one
character of the subject string, so subject length is enough fuel. -/
def removeAllF : ℕ → List Char → List Char → List Char
  | 0, _, s => s
  | _, _, [] => []
  | Nat.succ f, pat, c :: t =>
    if !pat.isEmpty && isPrefixL pat (c :: t) then
      removeAllF f pat (t.drop (pat.length - 1))
    else c :: removeAllF f pat t

/-- Remove every (non-overlapping, left-to-right) occurrence of pat
from s: the Python expression s.replace(pat, "") used by the source to
strip unit suffixes (" m", " mm", "%"). -/
def removeAll (pat s : List Char) : List Char := removeAllF s.length pat s

/-- ASCII lowering of a character list, modelling Python str.lower. -/
def lowerL (l : List Char) : List Char := l.map Char.toLower

/-- Exponent suffix of a Python float literal: optional sign then a
nonempty digit run consuming the rest of the string. -/
def parseExp (l : List Char) : Option ℤ :=
  let p : Bool × List Char :=
    match l with
    | '+' :: t => (false, t)
    | '-' :: t => (true, t)
    | t => (false, t)
  let ds := p.2.takeWhile isDigitC
  let rest := p.2.dropWhile isDigitC
  if ds.isEmpty || !rest.isEmpty then none
  else if p.1 then some (-(natOfDigits ds : ℤ)) else some ((natOfDigits ds : ℤ))

/-- Ten to an integer power, as a rational. -/
def pow10 (e : ℤ) : ℚ :=
  if 0 ≤ e then (10 : ℚ) ^ e.toNat else 1 / (10 : ℚ) ^ (-e).toNat

/-- Python float(s) on finite decimal literals, over exact rationals:
optional surrounding whitespace, optional sign, an integer part and/or
a fractional part (at least one digit between them), and an optional
exponent.  Non-numeric text fails with none (in the program this is
the raised ValueError, or, in the recovering parser, the trigger for
the per-field default).  The by-name special values of the float
grammar (nan, inf) have no exact-rational denotation and are outside
the model; the gradient path intercepts nan-like text before numeric
conversion. -/
def strToFloat (s : List Char) : Option ℚ :=
  let t := trimWs s
  let p : Bool × List Char :=
    match t with
    | '+' :: r => (false, r)
    | '-' :: r => (true, r)
    | r => (false, r)
  let ip := p.2.takeWhile isDigitC
  let r1 := p.2.dropWhile isDigitC
  let q : List Char × List Char :=
    match r1 with
    | '.' :: r => (r.takeWhile isDigitC, r.dropWhile isDigitC)
    | r => ([], r)
  if ip.isEmpty && q.1.isEmpty then none
  else
    let mant : ℚ := (natOfDigits ip : ℚ) + (natOfDigits q.1 : ℚ) / (10 : ℚ) ^ q.1.length
    let signed : ℚ := if p.1 then -mant else mant
    match q.2 with
    | [] => some signed
    | 'e' :: r => (parseExp r).map (fun e => signed * pow10 e)
    | 'E' :: r => (parseExp r).map (fun e => signed * pow10 e)
    | _ => none

/-- The literal characters of the sentinel phrase of the gradient
grammar. -/
def gtKey : List Char := "greater than".toList

/-- Modelled from the spec: the numeric token of the sentinel pattern
greater than backslash-s-star digits optional-fraction — skip
whitespace, require a nonempty digit run, then take a fractional part
only when a dot is followed by at least one digit (the optional regex
group). -/
def parseGTNum (l : List Char) : Option ℚ :=
  let l1 := l.dropWhile isWsC
  let ip := l1.takeWhile isDigitC
  let r1 := l1.dropWhile isDigitC
  if ip.isEmpty then none
  else
    match r1 with
    | '.' :: r =>
      let fp := r.takeWhile isDigitC
      if fp.isEmpty then some ((natOfDigits ip : ℚ))
      else some ((natOfDigits ip : ℚ) + (natOfDigits fp : ℚ) / (10 : ℚ) ^ fp.length)
    | _ => some ((natOfDigits ip : ℚ))

/-- Modelled from the spec: regex search for the first position where
the sentinel phrase is followed by an extractable numeric token
(positions where the phrase occurs without a following number are
skipped, as re.search continues scanning). -/
def extractGT : List Char → Option ℚ
  | [] => none
  | c :: t =>
    if isPrefixL gtKey (c :: t) then
      match parseGTNum ((c :: t).drop gtKey.length) with
      | some q => some q
      | none => extractGT t
    else extractGT t

/-- Modelled from the spec: the canonical gradient parser (design
document section 4.2), absent from src/app.py, which carries only the
simplified inline variant.  Rules in priority order: a string
containing nan (case-insensitively) yields 0; a greater-than sentinel
with an extractable number yields number/100; otherwise all percent
signs are stripped and the remainder is numerically converted,
yielding value/100; any conversion failure yields 0.  Total by
construction — the function never raises. -/
def parse_gradient (s : String) : ℚ :=
  let low := lowerL s.toList
  if containsSub ("nan".toList) low then 0
  else
    match extractGT low with
    | some tok => tok / 100
    | none =>
      match strToFloat (removeAll ("%".toList) s.toList) with
      | some v => v / 100
      | none => 0

/-- The input mapping: a string-keyed association of field names to
raw (already stringified) values, as the decoded request body hands
it to generate_drawing. -/
abbrev Input := List (String × String)

/-- First binding of a key, modelling Python dict lookup on the
request mapping. -/
def lookupA (k : String) : Input → Option String
  | [] => none
  | (a, b) :: t => if a = k then some b else lookupA k t

/-- dict.get(k, dflt): the stored value when the key is present, the
default otherwise. -/
def getField (data : Input) (k : String) (dflt : String) : String :=
  (lookupA k data).getD dflt

/-- The raw textual field values of one request, after the alias /
default resolution of generate_drawing (src/app.py lines 20-48): each
field is the stored string when its key is present, else the
documented default string. -/
structure RawFields where
  lengthS : String
  diameterS : String
  gradientS : String
  baffleHS : String
  baffleLenS : String
  spacingS : String
  shapeS : String
  installS : String
deriving DecidableEq

/-- Read the raw fields from the mapping.  The length field tries the
aliases culvertLength, Culvert Length, length in that order
(src/app.py line 20); the numeric default 10 stringifies to "10". -/
def readRaw (data : Input) : RawFields :=
  { lengthS := (lookupA "culvertLength" data).getD
      ((lookupA "Culvert Length" data).getD ((lookupA "length" data).getD "10")),
    diameterS := getField data "diameter" "1200 mm",
    gradientS := getField data "gradient" "0%",
    baffleHS := getField data "baffleHeight" "150 mm",
    baffleLenS := getField data "baffleLength" "600 mm",
    spacingS := getField data "spacing" "800 mm",
    shapeS := getField data "shape" "round",
    installS := getField data "installation" "" }

/-- Modelled from the spec: the canonical per-field numeric
conversion with local recovery (design document sections 4.1 and 7),
absent from src/app.py, whose inline float() calls raise instead.
The unit suffix is stripped, the remainder converted; a conversion
failure substitutes the documented per-field default and never
propagates. -/
def parseNumField (raw : String) (suffix : String) (dflt : ℚ) : ℚ :=
  match strToFloat (removeAll suffix.toList raw.toList) with
  | some v => v
  | none => dflt

/-- Millimeters to meters (src/app.py mm_to_m). -/
def mm_to_m (v : ℚ) : ℚ := v / 1000

/-- Pre-clamp culvert length in meters (suffix " m", default 10). -/
def lengthPre (r : RawFields) : ℚ := parseNumField r.lengthS " m" 10

/-- Raw diameter in millimeters, unit-stripped and pre-clamp: the
value the small-culvert gate compares against the threshold. -/
def diaRawMM (r : RawFields) : ℚ := parseNumField r.diameterS " mm" 1200

/-- Parsed gradient as a signed fraction. -/
def gradientOf (r : RawFields) : ℚ := parse_gradient r.gradientS

/-- Raw baffle height in millimeters (default 150). -/
def baffleHRawMM (r : RawFields) : ℚ := parseNumField r.baffleHS " mm" 150

/-- Raw baffle length in millimeters (default 600). -/
def baffleLenRawMM (r : RawFields) : ℚ := parseNumField r.baffleLenS " mm" 600

/-- Raw baffle spacing in millimeters (default 800). -/
def spacingRawMM (r : RawFields) : ℚ := parseNumField r.spacingS " mm" 800

/-- Culvert cross-section shape. -/
inductive Shape
  | round
  | box
deriving DecidableEq

/-- Baffle placement pattern. -/
inductive Placement
  | centered
  | offset
deriving DecidableEq

/-- Shape classification (src/app.py lines 41-45): the lowered shape
field equal to "flat" selects the box shape, anything else rounds. -/
def shapeOf (r : RawFields) : Shape :=
  if lowerL r.shapeS.toList = "flat".toList then .box else .round

/-- Modelled from the spec: the canonical placement keyword table
(design document section 4.3). src/app.py checks only "offset"; the
canonical classifier also recognizes "alternating", "meander" and
"20% shorter", first match winning (observationally, offset exactly
when any keyword occurs). -/
def offsetKeywords : List String :=
  ["offset", "alternating", "meander", "20% shorter"]

/-- Placement classification of the free-text installation field:
offset when any offset keyword occurs in the lowered text, centered
otherwise (empty, centered keywords, and unrecognized text all fall
to centered). -/
def placementOf (inst : String) : Placement :=
  if offsetKeywords.any (fun k => containsSub k.toList (lowerL inst.toList)) then
    .offset
  else .centered

/-- Baffle x-positions along the culvert (src/app.py lines 76-77):
i * spacing for i = 1 .. floor(length / spacing), kept only while not
past the culvert end; no baffle at x = 0. -/
def xPositionsQ (L s : ℚ) : List ℚ :=
  ((List.range (⌊L / s⌋).toNat).map (fun i : ℕ => ((i : ℚ) + 1) * s)).filter
    (fun x => x ≤ L)

/-- The fully-resolved geometric model of one culvert: normalized
metric quantities after the safety clamps, shape and placement
classification, and the derived baffle layout. -/
structure NormalizedCulvert where
  lengthM : ℚ
  diameterM : ℚ
  boxWM : ℚ
  boxHM : ℚ
  baffleHeightM : ℚ
  baffleLengthM : ℚ
  effBaffleLenM : ℚ
  spacingM : ℚ
  lateralOffsetM : ℚ
  shape : Shape
  placement : Placement
  xPositions : List ℚ
deriving DecidableEq

/-- Build the geometric model from the raw fields: numeric conversion
per field, the safety clamps of src/app.py lines 70-73 (length at
least 0.5 m, spacing at least 0.05 m, baffle height and length at
least 0), the box cross-section driven on both axes by the diameter
(lines 51-52), the lateral offset rule (lines 54-67), and the baffle
layout.  The effective baffle length override for box-centered
culverts is modelled from the spec (design document section 4.3): the
canonical file spans the full box height there, regardless of the
parsed baffle-length field. -/
def normalizeCulvert (r : RawFields) : NormalizedCulvert :=
  let d := mm_to_m (diaRawMM r)
  let L := max (1 / 2) (lengthPre r)
  let s := max (1 / 20) (mm_to_m (spacingRawMM r))
  let bh := max 0 (mm_to_m (baffleHRawMM r))
  let bl := max 0 (mm_to_m (baffleLenRawMM r))
  let sh := shapeOf r
  let pl := placementOf r.installS
  { lengthM := L, diameterM := d, boxWM := d, boxHM := d,
    baffleHeightM := bh, baffleLengthM := bl,
    effBaffleLenM := if sh = .box ∧ pl = .centered then d else bl,
    spacingM := s,
    lateralOffsetM := if pl = .offset ∧ sh = .round then 1 / 20 else 0,
    shape := sh, placement := pl,
    xPositions := xPositionsQ L s }

/-- Structured text content of a drawn label: the primitive carries
the rounded numeric payload of the formatted string; glyph rendering
belongs to the external rasterizer. -/
inductive Label
  | spacingMM (v : ℤ)
  | baffleHeightMM (v : ℤ)
  | baffleLengthMM (v : ℤ)
  | diameterMM (v : ℤ)
  | lengthMeters (v : ℚ)
  | placementNote (s : String)
deriving DecidableEq

/-- A draw primitive in the metric coordinate space of one view. -/
inductive Primitive
  | line (pts : List (ℚ × ℚ)) (lw : ℕ)
  | arrow (p q : ℚ × ℚ)
  | text (pos : ℚ × ℚ) (l : Label)
  | caption (s : String)
  | infoBox (msg : String)
deriving DecidableEq

/-- The figure title with its rounded numeric payload. -/
inductive TitleT
  | roundT (lengthM : ℚ) (diaMM : ℤ) (gradPct : ℚ)
  | boxT (lengthM : ℚ) (wMM hMM : ℤ) (gradPct : ℚ)
deriving DecidableEq

/-- Python round(x) on exact rationals: nearest integer, ties to the
even neighbor (banker's rounding). -/
def roundHalfEven (x : ℚ) : ℤ :=
  let f := ⌊x⌋
  let r := x - (f : ℚ)
  if r < 1 / 2 then f
  else if 1 / 2 < r then f + 1
  else if f % 2 = 0 then f else f + 1

/-- Python round(x, 1), idealized over exact rationals. -/
def round1q (x : ℚ) : ℚ := (roundHalfEven (x * 10) : ℚ) / 10

/-- int(round(v * 1000)): meters displayed as whole millimeters. -/
def roundMM (x : ℚ) : ℤ := roundHalfEven (x * 1000)

/-- np.linspace(0, L, 100): one hundred evenly spaced samples with
both endpoints included. -/
def linspace100 (L : ℚ) : List ℚ := (List.range 100).map (fun i => L * (i : ℚ) / 99)

/-- Longitudinal (side elevation) primitives, src/app.py lines
96-170: the gradient-dropped wall curves (100 samples for the round
pipe, two endpoints for the box), one vertical baffle segment per
x-position from the bottom wall up by the baffle height, a spacing
dimension between the first two baffles when at least two exist, and
a baffle-height dimension anchored at the last baffle. -/
def longPrims (n : NormalizedCulvert) (g : ℚ) : List Primitive :=
  let halfH : ℚ := if n.shape = .round then n.diameterM / 2 else n.boxHM / 2
  let walls : List Primitive :=
    match n.shape with
    | .round =>
      [.line ((linspace100 n.lengthM).map (fun x => (x, -x * g + n.diameterM / 2))) 2,
       .line ((linspace100 n.lengthM).map (fun x => (x, -x * g - n.diameterM / 2))) 2]
    | .box =>
      [.line (([(0 : ℚ), n.lengthM]).map (fun x => (x, -x * g + n.boxHM / 2))) 2,
       .line (([(0 : ℚ), n.lengthM]).map (fun x => (x, -x * g - n.boxHM / 2))) 2]
  let baffles : List Primitive :=
    n.xPositions.map (fun x =>
      .line [(x, -x * g - halfH), (x, -x * g - halfH + n.baffleHeightM)] 3)
  let spacingDim : List Primitive :=
    match n.xPositions with
    | x1 :: x2 :: _ =>
      let yd := -((x1 + x2) / 2) * g +
        (if n.shape = .round then n.diameterM / 4 else n.boxHM / 4)
      [.arrow (x1, yd) (x2, yd),
       .text ((x1 + x2) / 2, yd + 2 / 25) (.spacingMM (roundMM n.spacingM))]
    | _ => []
  let heightDim : List Primitive :=
    match n.xPositions.getLast? with
    | some xr =>
      let yb := -xr * g - halfH - 1 / 20
      let yt := yb + n.baffleHeightM + 1 / 10
      let xd := xr + 3 / 20
      [.arrow (xd, yb) (xd, yt),
       .text (xd + 3 / 20, (yb + yt) / 2) (.baffleHeightMM (roundMM n.baffleHeightM))]
    | none => []
  .caption "LONGITUDINAL VIEW" :: (walls ++ baffles ++ spacingDim ++ heightDim)

/-- Plan-view conduit width: the diameter for a round pipe, the box
height for a box (src/app.py lines 192, 204). -/
def culvertWidthM (n : NormalizedCulvert) : ℚ :=
  if n.shape = .round then n.diameterM else n.boxHM

/-- Lateral center of the baffle at index i in plan view (src/app.py
lines 220-229): box culverts with offset placement alternate flush to
opposite walls; every other combination centers at the lateral
offset. -/
def planBaffleY (n : NormalizedCulvert) (i : ℕ) : ℚ :=
  if n.placement = .offset ∧ n.shape ≠ .round then
    if i % 2 = 0 then culvertWidthM n / 2 - n.effBaffleLenM / 2
    else -(culvertWidthM n) / 2 + n.effBaffleLenM / 2
  else n.lateralOffsetM

/-- The plan-view baffle segments: one vertical-in-plan segment per
(index, x-position), spanning the effective baffle length around the
lateral center. -/
def planBaffleSegs (n : NormalizedCulvert) : List Primitive :=
  n.xPositions.enum.map (fun p =>
    .line [(p.2, planBaffleY n p.1 - n.effBaffleLenM / 2),
           (p.2, planBaffleY n p.1 + n.effBaffleLenM / 2)] 3)

/-- Plan-view (top-down) primitives, src/app.py lines 183-272: the
conduit outline (two wall lines for round, a closed rectangle for
box), the placement description label above the conduit, the baffle
segments, a baffle-length dimension at the first baffle, a diameter
dimension on the left for round pipes, and the full-length dimension
beneath.  None of these depends on the gradient. -/
def planPrims (n : NormalizedCulvert) : List Primitive :=
  let w := culvertWidthM n
  let walls : List Primitive :=
    match n.shape with
    | .round =>
      [.line [(0, n.diameterM / 2), (n.lengthM, n.diameterM / 2)] 2,
       .line [(0, -(n.diameterM) / 2), (n.lengthM, -(n.diameterM) / 2)] 2]
    | .box =>
      [.line [(0, n.boxHM / 2), (n.lengthM, n.boxHM / 2)] 2,
       .line [(0, -(n.boxHM) / 2), (n.lengthM, -(n.boxHM) / 2)] 2,
       .line [(0, -(n.boxHM) / 2), (0, n.boxHM / 2)] 2,
       .line [(n.lengthM, -(n.boxHM) / 2), (n.lengthM, n.boxHM / 2)] 2]
  let placeText : Primitive :=
    .text (n.lengthM / 2, w / 2 + 3 / 10)
      (.placementNote
        (if n.placement = .offset then
          (if n.shape = .round then "Offset baffles (50mm)" else "Alternating offset baffles")
        else "Centred baffles"))
  let blDim : List Primitive :=
    match n.xPositions with
    | x0 :: _ =>
      let yc : ℚ :=
        if n.placement = .offset ∧ n.shape ≠ .round then w / 2 - n.effBaffleLenM / 2
        else n.lateralOffsetM
      let xd := x0 + 3 / 20
      [.arrow (xd, yc - n.effBaffleLenM / 2) (xd, yc + n.effBaffleLenM / 2),
       .text (xd + 1 / 20, yc) (.baffleLengthMM (roundMM n.effBaffleLenM))]
    | [] => []
  let diaDim : List Primitive :=
    if n.shape = .round then
      [.arrow (-(3 : ℚ) / 10, -(n.diameterM) / 2) (-(3 : ℚ) / 10, n.diameterM / 2),
       .text (-(3 : ℚ) / 10 - 1 / 10, 0) (.diameterMM (roundMM n.diameterM))]
    else []
  let lenDim : List Primitive :=
    [.arrow (0, -w / 2 - 3 / 10) (n.lengthM, -w / 2 - 3 / 10),
     .text (n.lengthM / 2, -w / 2 - 3 / 10 - 1 / 10) (.lengthMeters n.lengthM)]
  .caption "PLAN VIEW" :: (walls ++ [placeText] ++ planBaffleSegs n ++ blDim ++ diaDim ++ lenDim)

/-- Figure title (src/app.py lines 82-85): length, diameter (or box
width by height) in rounded millimeters, gradient percentage rounded
to one decimal. -/
def titleOf (n : NormalizedCulvert) (g : ℚ) : TitleT :=
  match n.shape with
  | .round => .roundT n.lengthM (roundMM n.diameterM) (round1q (g * 100))
  | .box => .boxT n.lengthM (roundMM n.boxWM) (roundMM n.boxHM) (round1q (g * 100))

/-- The whole output of one drawing request: either the small-culvert
informational message alone, or the titled two-view primitive set. -/
inductive DrawOutput
  | smallMsg (p : Primitive)
  | drawing (title : TitleT) (longP planP : List Primitive)
deriving DecidableEq

/-- Modelled from the spec: the bordered informational text block of
the small-culvert fallback (design document section 4.5). -/
def fallbackPrim : Primitive :=
  .infoBox "Culvert diameter too small for standard baffle installation - please contact the provider"

/-- The drawing generator on resolved raw fields.  The small-culvert
gate is modelled from the spec (design document section 4.5, absent
from src/app.py): a raw unit-stripped pre-clamp diameter of at most
599 millimeters short-circuits to the single informational primitive,
bypassing geometry and emit; otherwise the geometry model is built
and both views are emitted. -/
def generate2 (r : RawFields) : DrawOutput :=
  if diaRawMM r ≤ 599 then .smallMsg fallbackPrim
  else
    .drawing (titleOf (normalizeCulvert r) (gradientOf r))
      (longPrims (normalizeCulvert r) (gradientOf r))
      (planPrims (normalizeCulvert r))

/-- The drawing generator on an input mapping (src/app.py
generate_drawing, with the canonical parsing layer). -/
def generate_drawing (data : Input) : DrawOutput :=
  generate2 (readRaw data)

/-- All emitted primitives of an output, the title as a caption. -/
def allPrims : DrawOutput → List Primitive
  | .smallMsg p => [p]
  | .drawing _ lp pp => lp ++ pp

/-- The plan-view primitives of an output (none on the fallback path). -/
def planOf : DrawOutput → List Primitive
  | .smallMsg _ => []
  | .drawing _ _ pp => pp

/-- Did the output take the full geometry-and-emit path. -/
def isDrawing : DrawOutput → Bool
  | .smallMsg _ => false
  | .drawing _ _ _ => true

/-- The raw (unit-stripped, pre-clamp) diameter of a request, in
millimeters: the value the small-culvert gate inspects. -/
def rawDiameterMM (data : Input) : ℚ := diaRawMM (readRaw data)

lemma normalizeCulvert_lengthM (r : RawFields) :
    (normalizeCulvert r).lengthM = max (1 / 2) (lengthPre r) := rfl

lemma normalizeCulvert_spacingM (r : RawFields) :
    (normalizeCulvert r).spacingM = max (1 / 20) (mm_to_m (spacingRawMM r)) := rfl

lemma normalizeCulvert_baffleHeightM (r : RawFields) :
    (normalizeCulvert r).baffleHeightM = max 0 (mm_to_m (baffleHRawMM r)) := rfl

lemma normalizeCulvert_baffleLengthM (r : RawFields) :
    (normalizeCulvert r).baffleLengthM = max 0 (mm_to_m (baffleLenRawMM r)) := rfl

lemma normalizeCulvert_diameterM (r : RawFields) :
    (normalizeCulvert r).diameterM = mm_to_m (diaRawMM r) := rfl

lemma normalizeCulvert_boxHM (r : RawFields) :
    (normalizeCulvert r).boxHM = mm_to_m (diaRawMM r) := rfl

lemma normalizeCulvert_boxWM (r : RawFields) :
    (normalizeCulvert r).boxWM = mm_to_m (diaRawMM r) := rfl

lemma normalizeCulvert_shape (r : RawFields) :
    (normalizeCulvert r).shape = shapeOf r := rfl

lemma normalizeCulvert_placement (r : RawFields) :
    (normalizeCulvert r).placement = placementOf r.installS := rfl

lemma normalizeCulvert_lateralOffsetM (r : RawFields) :
    (normalizeCulvert r).lateralOffsetM =
      (if placementOf r.installS = .offset ∧ shapeOf r = .round then 1 / 20 else 0) := rfl

lemma normalizeCulvert_effBaffleLenM (r : RawFields) :
    (normalizeCulvert r).effBaffleLenM =
      (if shapeOf r = .box ∧ placementOf r.installS = .centered then mm_to_m (diaRawMM r)
       else max 0 (mm_to_m (baffleLenRawMM r))) := rfl

lemma normalizeCulvert_xPositions (r : RawFields) :
    (normalizeCulvert r).xPositions =
      xPositionsQ (max (1 / 2) (lengthPre r)) (max (1 / 20) (mm_to_m (spacingRawMM r))) := rfl

/-- C1: for every input mapping whose raw (unit-stripped, pre-clamp)
diameter value is at most 599 millimeters, the generator
short-circuits to the small-culvert fallback: the output is the
fallback constructor (no geometry model, no drawing plan), and the
emitted primitive list is exactly the single bordered informational
text block. -/
theorem small_culvert_fallback (data : Input) (h : rawDiameterMM data ≤ 599) :
    generate_drawing data = .smallMsg fallbackPrim ∧
    allPrims (generate_drawing data) = [fallbackPrim] := by
  have hg : generate_drawing data = .smallMsg fallbackPrim := by
    unfold generate_drawing generate2
    exact if_pos h
  exact ⟨hg, by rw [hg]; rfl⟩

/-- Witness for C1: the concrete request diameter 450 mm is at or
under the threshold and yields exactly the fallback message. -/
theorem small_culvert_fallback_witness :
    rawDiameterMM [("diameter", "450 mm")] ≤ 599 ∧
    generate_drawing [("diameter", "450 mm")] = .smallMsg fallbackPrim ∧
    allPrims (generate_drawing [("diameter", "450 mm")]) = [fallbackPrim] := by
  refine ⟨by with_unfolding_all decide, ?_⟩
  have h := small_culvert_fallback [("diameter", "450 mm")] (by with_unfolding_all decide)
  exact ⟨h.1, h.2⟩

/-- C2: the gradient parser is total — it is a function into the
exact rationals, so every string yields a finite value and no
exception escapes.  Any string containing nan (case-insensitively)
yields 0; any string with no nan content, no extractable
greater-than sentinel and non-numeric remainder yields 0; and the
documented concrete inputs evaluate to their documented values. -/
theorem gradient_parser_total :
    (∀ s : String, containsSub ("nan".toList) (lowerL s.toList) = true →
      parse_gradient s = 0) ∧
    (∀ s : String, containsSub ("nan".toList) (lowerL s.toList) = false →
      extractGT (lowerL s.toList) = none →
      strToFloat (removeAll ("%".toList) s.toList) = none →
      parse_gradient s = 0) ∧
    parse_gradient "greater than 5%" = 5 / 100 ∧
    parse_gradient "12.5%" = 125 / 1000 ∧
    parse_gradient "NaN%" = 0 ∧
    parse_gradient "garbage" = 0 ∧
    parse_gradient "" = 0 := by
  refine ⟨?_, ?_, by with_unfolding_all decide, by with_unfolding_all decide,
    by with_unfolding_all decide, by with_unfolding_all decide, by with_unfolding_all decide⟩
  · intro s h
    unfold parse_gradient
    simp only [h, if_true]
  · intro s h1 h2 h3
    unfold parse_gradient
    simp only [h1, h2, h3, Bool.false_eq_true, if_false]

/-- Witness for C2: concrete strings discharging each hypothesis —
one caught by the nan rule, one falling through every rule to the
parse-failure default. -/
theorem gradient_parser_total_witness :
    parse_gradient "not a NumbEr NaN ish" = 0 ∧ parse_gradient "steeper than 5" = 0 := by
  constructor
  · exact gradient_parser_total.1 "not a NumbEr NaN ish" (by decide)
  · exact gradient_parser_total.2.1 "steeper than 5" (by decide) (by decide) (by decide)

/-- C4: per-field parse recovery — whenever the numeric conversion of
an individual field value fails (after unit-suffix stripping), the
parser substitutes that field's documented default (length 10 m,
diameter 1200 mm, baffle height 150 mm, baffle length 600 mm, spacing
800 mm, gradient 0), and, the parsers being total functions, no error
propagates out of the core. -/
theorem field_parse_failure_defaults (r : RawFields) :
    (strToFloat (removeAll (" m".toList) r.lengthS.toList) = none → lengthPre r = 10) ∧
    (strToFloat (removeAll (" mm".toList) r.diameterS.toList) = none → diaRawMM r = 1200) ∧
    (strToFloat (removeAll (" mm".toList) r.baffleHS.toList) = none → baffleHRawMM r = 150) ∧
    (strToFloat (removeAll (" mm".toList) r.baffleLenS.toList) = none → baffleLenRawMM r = 600) ∧
    (strToFloat (removeAll (" mm".toList) r.spacingS.toList) = none → spacingRawMM r = 800) ∧
    (extractGT (lowerL r.gradientS.toList) = none →
      strToFloat (removeAll ("%".toList) r.gradientS.toList) = none → gradientOf r = 0) := by
  refine ⟨?_, ?_, ?_, ?_, ?_, ?_⟩
  · intro h; simp only [lengthPre, parseNumField, h]
  · intro h; simp only [diaRawMM, parseNumField, h]
  · intro h; simp only [baffleHRawMM, parseNumField, h]
  · intro h; simp only [baffleLenRawMM, parseNumField, h]
  · intro h; simp only [spacingRawMM, parseNumField, h]
  · intro h1 h2
    unfold gradientOf parse_gradient
    by_cases hn : containsSub ("nan".toList) (lowerL r.gradientS.toList) = true
    · simp only [hn, if_true]
    · simp only [eq_false_of_ne_true hn, Bool.false_eq_true, if_false, h1, h2]

/-- Witness for C4: a request whose six numeric fields are all
non-numeric text resolves to the documented defaults. -/
theorem field_parse_failure_defaults_witness :
    lengthPre ⟨"abc", "x y", "pct?", "foo", "bar", "baz", "round", ""⟩ = 10 ∧
    diaRawMM ⟨"abc", "x y", "pct?", "foo", "bar", "baz", "round", ""⟩ = 1200 ∧
    baffleHRawMM ⟨"abc", "x y", "pct?", "foo", "bar", "baz", "round", ""⟩ = 150 ∧
    baffleLenRawMM ⟨"abc", "x y", "pct?", "foo", "bar", "baz", "round", ""⟩ = 600 ∧
    spacingRawMM ⟨"abc", "x y", "pct?", "foo", "bar", "baz", "round", ""⟩ = 800 ∧
    gradientOf ⟨"abc", "x y", "pct?", "foo", "bar", "baz", "round", ""⟩ = 0 := by
  have h := field_parse_failure_defaults ⟨"abc", "x y", "pct?", "foo", "bar", "baz", "round", ""⟩
  exact ⟨h.1 (by decide), h.2.1 (by decide), h.2.2.1 (by decide), h.2.2.2.1 (by decide),
    h.2.2.2.2.1 (by decide), h.2.2.2.2.2 (by decide) (by decide)⟩

/-- The classifier returns offset exactly when the keyword scan
succeeds. -/
lemma placementOf_eq_offset_iff (s : String) :
    placementOf s = .offset ↔
      (offsetKeywords.any (fun k => containsSub k.toList (lowerL s.toList))) = true := by
  unfold placementOf
  split
  · next h => exact iff_of_true rfl h
  · next h => exact iff_of_false (by decide) h

/-- The classifier returns centered exactly when the keyword scan
fails. -/
lemma placementOf_eq_centered_iff (s : String) :
    placementOf s = .centered ↔
      ¬(offsetKeywords.any (fun k => containsSub k.toList (lowerL s.toList))) = true := by
  unfold placementOf
  split
  · next h => exact iff_of_false (by decide) (fun hn => hn h)
  · next h => exact iff_of_true rfl h

/-- C5: placement classification — the installation text classifies
as offset exactly when its lowering contains one of the four offset
keywords; every other string (empty, the centered keywords, or any
unrecognized text) classifies as centered. -/
theorem placement_classification (s : String) :
    (placementOf s = .offset ↔
      (containsSub ("offset".toList) (lowerL s.toList) = true ∨
       containsSub ("alternating".toList) (lowerL s.toList) = true ∨
       containsSub ("meander".toList) (lowerL s.toList) = true ∨
       containsSub ("20% shorter".toList) (lowerL s.toList) = true)) ∧
    (placementOf s = .centered ↔
      ¬(containsSub ("offset".toList) (lowerL s.toList) = true ∨
        containsSub ("alternating".toList) (lowerL s.toList) = true ∨
        containsSub ("meander".toList) (lowerL s.toList) = true ∨
        containsSub ("20% shorter".toList) (lowerL s.toList) = true)) := by
  constructor
  · rw [placementOf_eq_offset_iff]
    simp only [offsetKeywords, List.any_cons, List.any_nil, Bool.or_eq_true,
      Bool.false_eq_true, or_false]
  · rw [placementOf_eq_centered_iff]
    simp only [offsetKeywords, List.any_cons, List.any_nil, Bool.or_eq_true,
      Bool.false_eq_true, or_false]

/-- C6: the baffle layout — for positive spacing and length at least
one spacing increment, the filter to positions within the culvert
keeps every generated position, so the layout is exactly
i * spacing for i = 1 .. floor(length/spacing): its count is
floor(length/spacing) (at least one), positions strictly increase,
none sits at x = 0, and every position (the last included) is at most
the length. -/
theorem baffle_layout_spec (L s : ℚ) (hs : 0 < s) (hsL : s ≤ L) :
    xPositionsQ L s = (List.range (⌊L / s⌋).toNat).map (fun i : ℕ => ((i : ℚ) + 1) * s) ∧
    (xPositionsQ L s).length = (⌊L / s⌋).toNat ∧
    1 ≤ (⌊L / s⌋).toNat ∧
    (xPositionsQ L s).Pairwise (· < ·) ∧
    ∀ x ∈ xPositionsQ L s, 0 < x ∧ x ≤ L := by
  have hds : (1 : ℚ) ≤ L / s := (one_le_div hs).mpr hsL
  have hfl1 : (1 : ℤ) ≤ ⌊L / s⌋ := Int.le_floor.mpr (by exact_mod_cast hds)
  have hcast : ((⌊L / s⌋.toNat : ℤ)) = ⌊L / s⌋ :=
    Int.toNat_of_nonneg (le_trans zero_le_one hfl1)
  have hnQ : ((⌊L / s⌋.toNat : ℚ)) ≤ L / s := by
    have hle := Int.floor_le (L / s)
    rw [← hcast] at hle
    exact_mod_cast hle
  have key : ∀ i : ℕ, i < ⌊L / s⌋.toNat → ((i : ℚ) + 1) * s ≤ L := by
    intro i hi
    have h1 : ((i : ℚ) + 1) ≤ (⌊L / s⌋.toNat : ℚ) := by exact_mod_cast Nat.succ_le_of_lt hi
    have h2 : ((i : ℚ) + 1) * s ≤ (⌊L / s⌋.toNat : ℚ) * s :=
      mul_le_mul_of_nonneg_right h1 hs.le
    have h3 : ((⌊L / s⌋.toNat : ℚ)) * s ≤ (L / s) * s := mul_le_mul_of_nonneg_right hnQ hs.le
    have h4 : (L / s) * s = L := div_mul_cancel₀ L hs.ne'
    linarith
  have hfil : xPositionsQ L s =
      (List.range (⌊L / s⌋).toNat).map (fun i : ℕ => ((i : ℚ) + 1) * s) := by
    unfold xPositionsQ
    apply List.filter_eq_self.mpr
    intro x hx
    obtain ⟨i, hi, rfl⟩ := List.mem_map.mp hx
    exact decide_eq_true (key i (List.mem_range.mp hi))
  refine ⟨hfil, ?_, ?_, ?_, ?_⟩
  · rw [hfil, List.length_map, List.length_range]
  · omega
  · rw [hfil]
    refine List.Pairwise.map _ ?_ (List.pairwise_lt_range _)
    intro a b hab
    have : ((a : ℚ) + 1) < ((b : ℚ) + 1) := by exact_mod_cast Nat.succ_lt_succ hab
    exact mul_lt_mul_of_pos_right this hs
  · intro x hx
    rw [hfil] at hx
    obtain ⟨i, hi, rfl⟩ := List.mem_map.mp hx
    constructor
    · have : (0 : ℚ) < (i : ℚ) + 1 := by positivity
      exact mul_pos this hs
    · exact key i (List.mem_range.mp hi)

/-- Witness for C6: length 10 m, spacing 0.8 m — twelve baffles, the
count matching the floor. -/
theorem baffle_layout_spec_witness :
    (0 : ℚ) < 4 / 5 ∧ (4 / 5 : ℚ) ≤ 10 ∧
    (xPositionsQ 10 (4 / 5)).length = (⌊(10 : ℚ) / (4 / 5)⌋).toNat ∧
    (xPositionsQ 10 (4 / 5)).length = 12 := by
  refine ⟨by norm_num, by norm_num,
    (baffle_layout_spec 10 (4 / 5) (by norm_num) (by norm_num)).2.1,
    by with_unfolding_all decide⟩

/-- Mapping a function of the element only over an indexed list
forgets the indices. -/
lemma enumFrom_map_of_snd (f : ℚ → Primitive) :
    ∀ (k : ℕ) (l : List ℚ), (List.enumFrom k l).map (fun p => f p.2) = l.map f
  | _, [] => rfl
  | k, x :: t => by
    simp only [List.enumFrom, List.map_cons]
    exact congrArg _ (enumFrom_map_of_snd f (k + 1) t)

/-- C3: box shape with centered placement — the effective baffle
length is overridden to the full box height, which the diameter
drives, so every plan-view baffle segment spans the whole
cross-section from -diameter/2 to diameter/2, regardless of the
parsed baffle-length field. -/
theorem box_centered_full_height (data : Input)
    (hsh : (normalizeCulvert (readRaw data)).shape = .box)
    (hpl : (normalizeCulvert (readRaw data)).placement = .centered) :
    (normalizeCulvert (readRaw data)).effBaffleLenM =
      (normalizeCulvert (readRaw data)).diameterM ∧
    (normalizeCulvert (readRaw data)).boxHM = (normalizeCulvert (readRaw data)).diameterM ∧
    planBaffleSegs (normalizeCulvert (readRaw data)) =
      (normalizeCulvert (readRaw data)).xPositions.map (fun x =>
        .line [(x, -((normalizeCulvert (readRaw data)).diameterM / 2)),
               (x, (normalizeCulvert (readRaw data)).diameterM / 2)] 3) := by
  set r := readRaw data with hr
  have hsh' : shapeOf r = .box := by rw [← normalizeCulvert_shape]; exact hsh
  have hpl' : placementOf r.installS = .centered := by
    rw [← normalizeCulvert_placement]; exact hpl
  have heff : (normalizeCulvert r).effBaffleLenM = (normalizeCulvert r).diameterM := by
    rw [normalizeCulvert_effBaffleLenM, normalizeCulvert_diameterM, if_pos ⟨hsh', hpl'⟩]
  have hlat : (normalizeCulvert r).lateralOffsetM = 0 := by
    rw [normalizeCulvert_lateralOffsetM, if_neg]
    intro hc
    rw [hpl'] at hc
    exact absurd hc.1 (by decide)
  have hy : ∀ i : ℕ, planBaffleY (normalizeCulvert r) i = 0 := by
    intro i
    unfold planBaffleY
    rw [if_neg, hlat]
    intro hc
    rw [hpl] at hc
    exact absurd hc.1 (by decide)
  refine ⟨heff, by rw [normalizeCulvert_boxHM, normalizeCulvert_diameterM], ?_⟩
  unfold planBaffleSegs
  have hstep : ∀ p ∈ (normalizeCulvert r).xPositions.enum,
      (Primitive.line
        [(p.2, planBaffleY (normalizeCulvert r) p.1 - (normalizeCulvert r).effBaffleLenM / 2),
         (p.2, planBaffleY (normalizeCulvert r) p.1 + (normalizeCulvert r).effBaffleLenM / 2)] 3)
      = (fun x => Primitive.line
          [(x, -((normalizeCulvert r).diameterM / 2)),
           (x, (normalizeCulvert r).diameterM / 2)] 3) p.2 := by
    intro p _
    rw [hy, heff, zero_sub, zero_add]
  rw [List.map_congr_left hstep]
  exact enumFrom_map_of_snd
    (fun x => Primitive.line
      [(x, -((normalizeCulvert r).diameterM / 2)),
       (x, (normalizeCulvert r).diameterM / 2)] 3) 0
    (normalizeCulvert r).xPositions

/-- Witness for C3: a flat-shape request with a 600 mm baffle-length
field still gets full-height (1200 mm = 1.2 m) plan baffles. -/
theorem box_centered_full_height_witness :
    (normalizeCulvert (readRaw [("shape", "flat"), ("baffleLength", "600 mm")])).shape
      = .box ∧
    (normalizeCulvert (readRaw [("shape", "flat"), ("baffleLength", "600 mm")])).placement
      = .centered ∧
    (normalizeCulvert (readRaw [("shape", "flat"), ("baffleLength", "600 mm")])).effBaffleLenM
      = (normalizeCulvert (readRaw [("shape", "flat"), ("baffleLength", "600 mm")])).diameterM ∧
    (normalizeCulvert (readRaw [("shape", "flat"), ("baffleLength", "600 mm")])).effBaffleLenM
      = 6 / 5 ∧
    (normalizeCulvert (readRaw [("shape", "flat"), ("baffleLength", "600 mm")])).baffleLengthM
      = 3 / 5 := by
  refine ⟨by with_unfolding_all decide, by with_unfolding_all decide, ?_,
    by with_unfolding_all decide, by with_unfolding_all decide⟩
  exact (box_centered_full_height [("shape", "flat"), ("baffleLength", "600 mm")]
    (by with_unfolding_all decide) (by with_unfolding_all decide)).1

/-- C7: every request that reaches geometry construction has a
strictly positive normalized diameter — the small-culvert gate admits
only raw diameters above 599 mm — and that diameter drives both box
cross-section axes. -/
theorem geometry_path_diameter_pos (data : Input)
    (h : isDrawing (generate_drawing data) = true) :
    0 < (normalizeCulvert (readRaw data)).diameterM ∧
    (normalizeCulvert (readRaw data)).boxWM = (normalizeCulvert (readRaw data)).diameterM ∧
    (normalizeCulvert (readRaw data)).boxHM = (normalizeCulvert (readRaw data)).diameterM := by
  refine ⟨?_, by rw [normalizeCulvert_boxWM, normalizeCulvert_diameterM],
    by rw [normalizeCulvert_boxHM, normalizeCulvert_diameterM]⟩
  by_cases hc : diaRawMM (readRaw data) ≤ 599
  · exfalso
    unfold generate_drawing generate2 at h
    rw [if_pos hc] at h
    exact absurd h (by decide)
  · have h599 : (599 : ℚ) < diaRawMM (readRaw data) := not_le.mp hc
    rw [normalizeCulvert_diameterM]
    unfold mm_to_m
    linarith

/-- Witness for C7: the all-defaults request (diameter 1200 mm) takes
the geometry path and has positive normalized diameter. -/
theorem geometry_path_diameter_pos_witness :
    isDrawing (generate_drawing []) = true ∧
    0 < (normalizeCulvert (readRaw [])).diameterM :=
  ⟨by with_unfolding_all decide,
   (geometry_path_diameter_pos [] (by with_unfolding_all decide)).1⟩

/-- C8: the post-parse clamps — each normalized quantity is the max
of its defensive floor and the parsed value, so length is at least
0.5 m, spacing at least 0.05 m, baffle height and baffle length at
least 0; clamping is a total computation, raising nothing. -/
theorem post_parse_clamps (r : RawFields) :
    (normalizeCulvert r).lengthM = max (1 / 2) (lengthPre r) ∧
    (normalizeCulvert r).spacingM = max (1 / 20) (mm_to_m (spacingRawMM r)) ∧
    (normalizeCulvert r).baffleHeightM = max 0 (mm_to_m (baffleHRawMM r)) ∧
    (normalizeCulvert r).baffleLengthM = max 0 (mm_to_m (baffleLenRawMM r)) ∧
    1 / 2 ≤ (normalizeCulvert r).lengthM ∧
    1 / 20 ≤ (normalizeCulvert r).spacingM ∧
    0 ≤ (normalizeCulvert r).baffleHeightM ∧
    0 ≤ (normalizeCulvert r).baffleLengthM :=
  ⟨rfl, rfl, rfl, rfl,
   by rw [normalizeCulvert_lengthM]; exact le_max_left _ _,
   by rw [normalizeCulvert_spacingM]; exact le_max_left _ _,
   by rw [normalizeCulvert_baffleHeightM]; exact le_max_left _ _,
   by rw [normalizeCulvert_baffleLengthM]; exact le_max_left _ _⟩

/-- C9: determinism — the generator reads the request only through
key lookups, so any two invocations on mappings with identical
lookups (in particular, on the identical mapping) produce identical
outputs: same title and the same primitive lists, coordinates and
labels included. -/
theorem drawing_deterministic (d1 d2 : Input)
    (h : ∀ k : String, lookupA k d1 = lookupA k d2) :
    generate_drawing d1 = generate_drawing d2 := by
  have hr : readRaw d1 = readRaw d2 := by
    unfold readRaw getField
    rw [h "culvertLength", h "Culvert Length", h "length", h "diameter", h "gradient",
      h "baffleHeight", h "baffleLength", h "spacing", h "shape", h "installation"]
  unfold generate_drawing
  rw [hr]

/-- Witness for C9: two invocations on one concrete mapping agree. -/
theorem drawing_deterministic_witness :
    generate_drawing [("diameter", "1200 mm"), ("gradient", "2%")] =
      generate_drawing [("diameter", "1200 mm"), ("gradient", "2%")] :=
  drawing_deterministic _ _ (fun _ => rfl)

/-- The plan view of the output depends on the raw fields only
through the gate value and the geometric model. -/
lemma planOf_generate2_congr (r1 r2 : RawFields)
    (h1 : diaRawMM r1 = diaRawMM r2)
    (h2 : normalizeCulvert r1 = normalizeCulvert r2) :
    planOf (generate2 r1) = planOf (generate2 r2) := by
  unfold generate2
  by_cases hc : diaRawMM r1 ≤ 599
  · rw [if_pos hc, if_pos (h1 ▸ hc)]
  · rw [if_neg hc, if_neg (h1 ▸ hc)]
    show planPrims (normalizeCulvert r1) = planPrims (normalizeCulvert r2)
    rw [h2]

/-- Changing only the gradient field of the raw record leaves the
plan view unchanged: neither the gate nor the geometric model reads
the gradient. -/
lemma planOf_generate2_gradient (r : RawFields) (g : String) :
    planOf (generate2 { r with gradientS := g }) = planOf (generate2 r) := by
  cases r
  exact planOf_generate2_congr _ _ rfl rfl

/-- C10: the plan-view primitives are independent of the gradient
field — two requests whose lookups agree on every key other than
gradient emit identical plan views (outline, baffle segments,
dimension arrows and labels, length dimension). -/
theorem plan_view_gradient_independent (d1 d2 : Input)
    (h : ∀ k : String, k ≠ "gradient" → lookupA k d1 = lookupA k d2) :
    planOf (generate_drawing d1) = planOf (generate_drawing d2) := by
  have hrr : readRaw d1 = { readRaw d2 with gradientS := (readRaw d1).gradientS } := by
    unfold readRaw getField
    rw [h "culvertLength" (by decide), h "Culvert Length" (by decide),
      h "length" (by decide), h "diameter" (by decide), h "baffleHeight" (by decide),
      h "baffleLength" (by decide), h "spacing" (by decide), h "shape" (by decide),
      h "installation" (by decide)]
  show planOf (generate2 (readRaw d1)) = planOf (generate2 (readRaw d2))
  rw [hrr]
  exact planOf_generate2_gradient (readRaw d2) _

/-- Witness for C10: concrete mappings differing only in the gradient
value have equal plan views. -/
theorem plan_view_gradient_independent_witness :
    planOf (generate_drawing [("gradient", "2%")]) =
      planOf (generate_drawing [("gradient", "5%")]) := by
  apply plan_view_gradient_independent
  intro k hk
  simp only [lookupA]
  rw [if_neg (fun he => hk he.symm), if_neg (fun he => hk he.symm)]
